import Mathlib

/-!
Shallow embedding of the WordPressScan scanner core (`scanner.py`) and proofs of
the specification claims about it.  Network interactions are modelled as explicit
inputs (`Except` values standing for a raised `requests.RequestException` versus a
received response); regular-expression searches performed by the Python `re`
module are modelled as oracle fields of the response (the capture result), since
the claims under verification never depend on the internals of the regex engine.
All Python truthiness tests on optional strings are modelled by `truthy`.
-/

namespace WPScan

/-- Python truthiness of an optional string: `None` and `""` are falsy. -/
def truthy : Option String → Bool
  | none => false
  | some s => !s.isEmpty

/-- Unwrap an optional string, defaulting to `""` (used only under a `truthy` guard). -/
def ostr : Option String → String
  | none => ""
  | some s => s

/-- Whether `pat` occurs at the start of `text` (on character lists). -/
def listStartsWith : List Char → List Char → Bool
  | [], _ => true
  | _ :: _, [] => false
  | a :: as, b :: bs => a == b && listStartsWith as bs

/-- Whether `pat` occurs somewhere inside `text` (on character lists). -/
def listSubOf (pat : List Char) : List Char → Bool
  | [] => listStartsWith pat []
  | c :: t => listStartsWith pat (c :: t) || listSubOf pat t

/-- Python's `pat in s` substring test. -/
def strContains (s pat : String) : Bool :=
  listSubOf pat.data s.data

/-!
Model of `distutils.version.LooseVersion` (imported at `scanner.py` line 8).
`LooseVersion.parse` splits the version string with the regex
`(\d+ | [a-z]+ | \.)`, drops the `"."` separators, converts digit runs to
integers and keeps every other maximal chunk as a string; comparison is Python
list comparison, where comparing an `int` component with a `str` component
raises `TypeError`.
-/

/-- A parsed `LooseVersion` component: an integer or a string chunk. -/
inductive LVTok where
  | num (n : Nat)
  | str (s : String)
deriving DecidableEq, Repr

/-- Tokenizer state: the current unfinished chunk (digit run, `[a-z]` run, or
run of any other characters — the three chunk classes of the `LooseVersion`
component regex, which never merge with each other). -/
inductive LVCur where
  | cnum (n : Nat)
  | clow (s : String)
  | coth (s : String)
deriving DecidableEq, Repr

/-- Close the current chunk into a component. -/
def curTok : LVCur → LVTok
  | .cnum n => .num n
  | .clow s => .str s
  | .coth s => .str s

/-- Tokenizer state: finished components plus the current chunk. -/
structure LVState where
  toks : List LVTok
  cur : Option LVCur
deriving DecidableEq, Repr

/-- Flush the current chunk, yielding the component list so far. -/
def lvFlush (st : LVState) : List LVTok :=
  st.toks ++ (match st.cur with | none => [] | some t => [curTok t])

/-- Is `c` in `[a-z]` (the letter class of the `LooseVersion` component regex)? -/
def isLowerAZ (c : Char) : Bool :=
  'a' ≤ c && c ≤ 'z'

/-- One tokenizer step: `.` ends the current chunk and is dropped; a digit
extends a digit run or starts one; an `[a-z]` letter extends a letter run or
starts one; any other character extends or starts an "other" run. -/
def lvStep (st : LVState) (c : Char) : LVState :=
  if c = '.' then ⟨lvFlush st, none⟩
  else if c.isDigit then
    match st.cur with
    | some (.cnum n) => ⟨st.toks, some (.cnum (n * 10 + (c.toNat - 48)))⟩
    | _ => ⟨lvFlush st, some (.cnum (c.toNat - 48))⟩
  else if isLowerAZ c then
    match st.cur with
    | some (.clow s) => ⟨st.toks, some (.clow (s.push c))⟩
    | _ => ⟨lvFlush st, some (.clow (String.singleton c))⟩
  else
    match st.cur with
    | some (.coth s) => ⟨st.toks, some (.coth (s.push c))⟩
    | _ => ⟨lvFlush st, some (.coth (String.singleton c))⟩

/-- `LooseVersion(s).version`: the component list of a version string. -/
def looseParse (s : String) : List LVTok :=
  lvFlush (s.data.foldl lvStep ⟨[], none⟩)

/-- Python list comparison on component lists.  Components of equal value are
skipped; the first differing pair decides; comparing an `int` with a `str`
raises `TypeError` (modelled as `Except.error`). -/
def lvCompare : List LVTok → List LVTok → Except Unit Ordering
  | [], [] => .ok .eq
  | [], _ :: _ => .ok .lt
  | _ :: _, [] => .ok .gt
  | .num a :: xs, .num b :: ys =>
      if a < b then .ok .lt else if b < a then .ok .gt else lvCompare xs ys
  | .str a :: xs, .str b :: ys =>
      if a = b then lvCompare xs ys
      else if a < b then .ok .lt else .ok .gt
  | .num _ :: _, .str _ :: _ => .error ()
  | .str _ :: _, .num _ :: _ => .error ()

/-- `LooseVersion(a) < LooseVersion(b)`.  `Version.__init__` only calls
`parse` on a truthy vstring, so a `LooseVersion` built from `""` has no
`version` attribute and comparing it raises `AttributeError`; that raise, and
the `TypeError` on mixed `int`/`str` components, are both modelled as
`Except.error`. -/
def versionLess (a b : String) : Except Unit Bool :=
  if a.isEmpty || b.isEmpty then .error ()
  else
    match lvCompare (looseParse a) (looseParse b) with
    | .ok o => .ok (o = .lt)
    | .error e => .error e

/-- A stand-in for the `str(e)` text of the `TypeError` raised when Python
compares an `int` list element with a `str` one (the type names appear in the
order of the offending pair, so the direction can also be reversed; no
theorem inspects this text). -/
def typeErrorText : String :=
  "'<' not supported between instances of 'int' and 'str'"

/-!
`WordPressScanner.is_wordpress` (`scanner.py` lines 21-53).
-/

/-- The root-page response: its body, its post-redirect URL, and the oracle
result of `re.search` for the generator meta tag
`<meta name="generator" content="WordPress ([0-9.]+)"` (the captured version,
or `none` when the pattern does not match). -/
structure RootResp where
  html : String
  finalUrl : String
  generator : Option String
deriving DecidableEq, Repr

/-- The `<base>/wp-json/` probe response. -/
structure RestResp where
  status : Nat
  body : String
deriving DecidableEq, Repr

/-- The two network interactions of a detector run: the root fetch (`.error`
carries `str(e)` of the raised `requests.RequestException`) and the REST probe
(`.error` is any raised exception, swallowed by the inner bare `except`). -/
structure DetectInput where
  root : Except String RootResp
  rest : Except Unit RestResp
deriving Repr

/-- The `indicators` dictionary returned by `is_wordpress`. -/
structure Indicators where
  is_wordpress : Bool
  confidence : Nat
  detected_by : List String
  wp_version : Option String
  url : String
  error : Option String
deriving DecidableEq, Repr

/-- Signal 1: the body contains `/wp-content/` or `/wp-includes/` (line 33). -/
def pathSignal (html : String) : Bool :=
  strContains html "/wp-content/" || strContains html "/wp-includes/"

/-- Signal 3: the REST probe returned 200 with `namespaces` in the body
(lines 41-48); a raised exception is swallowed and the signal skipped. -/
def restSignal : Except Unit RestResp → Bool
  | .error _ => false
  | .ok r => r.status == 200 && strContains r.body "namespaces"

/-- `WordPressScanner.is_wordpress` (lines 21-53): score the three signals,
then set `is_wordpress` when `confidence >= 30`; a `requests.RequestException`
on the root fetch sets `error` and returns with confidence 0. -/
def is_wordpress (target_url : String) (inp : DetectInput) : Indicators :=
  match inp.root with
  | .error e =>
      { is_wordpress := false, confidence := 0, detected_by := [],
        wp_version := none, url := target_url, error := some e }
  | .ok r =>
      let s1 := pathSignal r.html
      let s2 := r.generator.isSome
      let s3 := restSignal inp.rest
      let conf := (if s1 then 30 else 0) + (if s2 then 40 else 0) +
        (if s3 then 30 else 0)
      { is_wordpress := decide (30 ≤ conf),
        confidence := conf,
        detected_by :=
          (if s1 then ["wp-content/wp-includes paths"] else []) ++
          (if s2 then ["meta generator tag"] else []) ++
          (if s3 then ["REST API endpoint"] else []),
        wp_version := r.generator,
        url := target_url,
        error := none }

/-!
`WordPressScanner.check_plugin` (`scanner.py` lines 55-86).
-/

/-- The `readme.txt` response: HTTP status and the oracle result of
`re.search(r'Stable tag:\s*([0-9.]+)', text, re.IGNORECASE)` (the captured
version, or `none` when the pattern does not match). -/
structure ReadmeResp where
  status : Nat
  stable_tag : Option String
deriving DecidableEq, Repr

/-- The `result` dictionary returned by `check_plugin`. -/
structure ProbeResult where
  plugin_slug : String
  is_installed : Bool
  version : Option String
  detected_by : Option String
  plugin_url : Option String
deriving DecidableEq, Repr

/-- `plugin_base_url` (line 63): the slug is interpolated verbatim into the
f-string, with no rejection and no percent-encoding. -/
def plugin_base_url (target_url plugin_slug : String) : String :=
  target_url ++ "/wp-content/plugins/" ++ plugin_slug ++ "/"

/-- `urljoin(plugin_base_url, 'readme.txt')` (line 64).  With a base ending in
`/` and a relative name free of dot-segments, `urljoin` appends; this is exact
whenever no `/`-separated segment of the slug is `.` or `..`. -/
def readme_url (target_url plugin_slug : String) : String :=
  plugin_base_url target_url plugin_slug ++ "readme.txt"

/-- `urljoin(plugin_base_url, f'assets/css/{plugin_slug}.css')` (line 78),
modelled as appending, exact under the same dot-segment proviso. -/
def css_url (target_url plugin_slug : String) : String :=
  plugin_base_url target_url plugin_slug ++ "assets/css/" ++ plugin_slug ++ ".css"

/-- A path segment that is neither `.` nor `..`. -/
def segOk (seg : List Char) : Bool :=
  !(seg == ['.']) && !(seg == ['.', '.'])

/-- Walk the characters, splitting on `/`, checking every segment. -/
def goSegs (cur : List Char) : List Char → Bool
  | [] => segOk cur
  | c :: t => if c = '/' then segOk cur && goSegs [] t else goSegs (cur ++ [c]) t

/-- No `/`-separated segment of the slug is `.` or `..`: under this proviso
`urljoin` performs no dot-segment normalisation on the merged path, and the
modelled URL concatenation matches it exactly. -/
def noDotSegments (s : String) : Bool :=
  goSegs [] s.data

/-- Has the readme probe failed to establish installation (raised, or non-200)? -/
def readmeMissed : Except Unit ReadmeResp → Bool
  | .error _ => true
  | .ok r => !(r.status == 200)

/-- Has the asset probe failed to establish installation (raised, or non-200)? -/
def assetMissed : Except Unit Nat → Bool
  | .error _ => true
  | .ok st => !(st == 200)

/-- `WordPressScanner.check_plugin` (lines 55-86): GET `readme.txt`; on 200
report installed via `readme.txt` (version from the oracle `Stable tag` match)
and return without touching the asset probe; otherwise (non-200 or raised)
HEAD the asset file; on 200 report installed via `asset file`; otherwise the
initial not-installed record.  `readme` and `asset` are the two network
interactions, `.error` standing for a raised `requests.RequestException`. -/
def check_plugin (target_url plugin_slug : String)
    (readme : Except Unit ReadmeResp) (asset : Except Unit Nat) : ProbeResult :=
  let r0 : ProbeResult :=
    { plugin_slug := plugin_slug, is_installed := false, version := none,
      detected_by := none, plugin_url := none }
  let afterReadme : Option ProbeResult :=
    match readme with
    | .error _ => none
    | .ok r =>
        if r.status == 200 then
          some { r0 with is_installed := true, detected_by := some "readme.txt",
                         plugin_url := some (readme_url target_url plugin_slug),
                         version := r.stable_tag }
        else none
  match afterReadme with
  | some res => res
  | none =>
      match asset with
      | .error _ => r0
      | .ok st =>
          if st == 200 then
            { r0 with is_installed := true, detected_by := some "asset file",
                      plugin_url := some (css_url target_url plugin_slug) }
          else r0

/-!
`WordPressScanner.get_plugin_cves` (`scanner.py` lines 88-176).
-/

/-- The wordpress.org registry response: HTTP status, and the parse of its
JSON body — `.error` when `wp_response.json()` raises, otherwise the
`plugin_data.get('version')` field. -/
structure Tier1Resp where
  status : Nat
  json : Except Unit (Option String)
deriving Repr

/-- One vulnerability entry of the WPScan API response:
`vuln.get('title')`, `vuln.get('cve')` and `vuln.get('fixed_in')`. -/
structure Vuln where
  title : Option String
  cve : Option String
  fixed_in : Option String
deriving DecidableEq, Repr

/-- The WPScan API response: HTTP status, the
`plugin_data.get('latest_version')` field and the
`plugin_data.get('vulnerabilities', [])` list (for the `data.get(slug, {})`
fallback use `none` and `[]`). -/
structure Tier2Resp where
  status : Nat
  latest_version : Option String
  vulnerabilities : List Vuln
deriving Repr

/-- A vulnerability appended to `result['vulnerabilities']`. -/
structure VulnOut where
  title : Option String
  cve : Option String
  fixed_in : String
deriving DecidableEq, Repr

/-- The `result` dictionary returned by `get_plugin_cves`, plus the
instrumentation flag `tier2_executed`, set exactly when the conditional
tier-2 branch (line 126) is entered; it affects no other field. -/
structure CveReport where
  plugin_slug : String
  version : Option String
  vulnerabilities : List VulnOut
  is_outdated : Bool
  latest_version : Option String
  source : String
  error : Option String
  tier2_executed : Bool
deriving DecidableEq, Repr

/-- Tier 1 (lines 105-120): query the registry; on 200 record the latest
version and, when both the supplied version and the latest are truthy,
compare them with `LooseVersion`; a raised request, a raised `json()`, or a
non-200 status sets `is_outdated = True` (the registry's latest stays unset in
those cases, but survives a comparison `TypeError` because line 111 assigns it
first).  Returns `(latest_version, is_outdated)`. -/
def tier1 (version : Option String) (env1 : Except Unit Tier1Resp) :
    Option String × Bool :=
  match env1 with
  | .error _ => (none, true)
  | .ok r =>
      if r.status == 200 then
        match r.json with
        | .error _ => (none, true)
        | .ok lv =>
            if truthy version && truthy lv then
              match versionLess (ostr version) (ostr lv) with
              | .ok b => (lv, b)
              | .error _ => (lv, true)
            else (lv, false)
      else (none, true)

/-- One iteration of the vulnerability loop (lines 143-168): a falsy
`fixed_in` is appended as `Not fixed`; with a truthy `fixed_in` and a truthy
installed version, the entry is appended when `LooseVersion` says the
installed version is older, and also when that comparison raises (the inner
bare `except`); with a truthy `fixed_in` and a falsy installed version no
branch appends the entry. -/
def vulnStep (version : Option String) (acc : List VulnOut) (v : Vuln) :
    List VulnOut :=
  if !truthy v.fixed_in then
    acc ++ [{ title := v.title, cve := v.cve, fixed_in := "Not fixed" }]
  else if truthy version then
    match versionLess (ostr version) (ostr v.fixed_in) with
    | .ok true => acc ++ [{ title := v.title, cve := v.cve, fixed_in := ostr v.fixed_in }]
    | .ok false => acc
    | .error _ => acc ++ [{ title := v.title, cve := v.cve, fixed_in := ostr v.fixed_in }]
  else acc

/-- The full vulnerability loop over the WPScan entries. -/
def vulnFilter (version : Option String) (vulns : List Vuln) : List VulnOut :=
  vulns.foldl (vulnStep version) []

/-- Tier 2 proper (lines 130-170), from the state `st` left by the guard: a
raised request or `json()` sets `error`; on a 200 the WPScan latest version is
preferred when truthy (line 137), `is_outdated` is recomputed when the
supplied version is also truthy (a comparison `TypeError` is caught by the
outer handler at line 169, setting `error` and skipping the loop), and the
vulnerability loop filters the entries; a non-200 changes nothing. -/
def tier2Apply (version : Option String) (env2 : Except String Tier2Resp)
    (st : CveReport) : CveReport :=
  match env2 with
  | .error msg => { st with error := some ("WPScan API error: " ++ msg) }
  | .ok r =>
      if r.status == 200 then
        if truthy r.latest_version then
          let st2 := { st with latest_version := r.latest_version }
          if truthy version then
            match versionLess (ostr version) (ostr r.latest_version) with
            | .ok b =>
                { st2 with is_outdated := b,
                           vulnerabilities := vulnFilter version r.vulnerabilities }
            | .error _ =>
                { st2 with error := some ("WPScan API error: " ++ typeErrorText) }
          else { st2 with vulnerabilities := vulnFilter version r.vulnerabilities }
        else { st with vulnerabilities := vulnFilter version r.vulnerabilities }
      else st

/-- The `result` dictionary as it stands after tier 1 (lines 93-120):
defaults, the tier-1 latest version and outdated flag, the free-API source
label set at line 104. -/
def gpcBase (plugin_slug : String) (version : Option String)
    (env1 : Except Unit Tier1Resp) : CveReport :=
  { plugin_slug := plugin_slug, version := version, vulnerabilities := [],
    is_outdated := (tier1 version env1).2,
    latest_version := (tier1 version env1).1,
    source := "WordPress.org API", error := none, tier2_executed := false }

/-- The tier-2 guard (lines 124-126):
`(result['is_outdated'] or is_unknown) and api_token`, with
`is_unknown = (not result['latest_version'] and version)`. -/
def gpcGuard (version token : Option String) (env1 : Except Unit Tier1Resp) : Bool :=
  ((tier1 version env1).2 || (!truthy (tier1 version env1).1 && truthy version))
    && truthy token

/-- The final relabel (lines 172-174): when the final outdated flag is false
and the token truthy, the source becomes the up-to-date label. -/
def relabel (token : Option String) (r : CveReport) : CveReport :=
  if !r.is_outdated && truthy token then
    { r with source := "WordPress.org API (Up to date)" }
  else r

/-- `WordPressScanner.get_plugin_cves` (lines 88-176).  `token` is
`os.environ.get('WPSCAN_API_TOKEN')`; `env1` is the registry interaction and
`env2` the WPScan interaction (`.error` carries `str(e)` of the raised
exception).  Tier 2 runs only when the guard holds, first switching the
source label to the paid one (line 127); the final relabel runs last. -/
def get_plugin_cves (plugin_slug : String) (version : Option String)
    (token : Option String) (env1 : Except Unit Tier1Resp)
    (env2 : Except String Tier2Resp) : CveReport :=
  relabel token
    (if gpcGuard version token env1 = true then
      tier2Apply version env2
        { gpcBase plugin_slug version env1 with
            source := "WPScan API (Outdated)", tier2_executed := true }
    else gpcBase plugin_slug version env1)

/-- A raised registry request, a raised registry `json()`, or a non-200
registry status. -/
def tier1Failed : Except Unit Tier1Resp → Bool
  | .error _ => true
  | .ok r => !(r.status == 200) || (match r.json with | .error _ => true | .ok _ => false)

/-- The tier-2 execution condition as the specification words it: a paid-API
credential is configured, and tier 1 marked the plugin outdated or the
installed version is known while no registry latest version was resolved. -/
def specTier2Runs (credentialConfigured tier1Outdated versionKnown latestResolved : Bool) :
    Bool :=
  credentialConfigured && (tier1Outdated || (versionKnown && !latestResolved))

/-!
`WordPressScanner.enumerate_plugins` (`scanner.py` lines 211-254).  The probe
of a slug is `check_plugin`, deterministic in the network environment, so the
enumerator is parametrised by a probe function `probe : String → ProbeResult`.
The thread pool collects `future.result()` in submission order (lines
245-251), so the concurrent stage is faithfully a fold in list order.
-/

/-- The `result` dictionary returned by `enumerate_plugins`. -/
structure EnumResult where
  plugins : List ProbeResult
  total_found : Nat
  detection_methods : List String
deriving DecidableEq, Repr

/-- One iteration of the HTML-scraping stage (lines 229-234): skip a slug
already discovered, probe the rest, and record installed ones in both the
plugin list and the discovered set (kept as a list). -/
def htmlAccum (probe : String → ProbeResult)
    (acc : List ProbeResult × List String) (slug : String) :
    List ProbeResult × List String :=
  if acc.2.contains slug then acc
  else
    let info := probe slug
    if info.is_installed then (acc.1 ++ [info], acc.2 ++ [slug]) else acc

/-- The HTML-scraping stage: `none` models the root fetch raising (the outer
bare `except` at line 235); `some slugs` is the deduplicated
`set(re.findall(r'/wp-content/plugins/([^/\x27"]+)', html))` in iteration
order. -/
def htmlStage (probe : String → ProbeResult) (htmlSlugs : Option (List String)) :
    List ProbeResult × List String :=
  match htmlSlugs with
  | none => ([], [])
  | some slugs => slugs.foldl (htmlAccum probe) ([], [])

/-- `plugins_to_check` (line 243): candidate slugs not already discovered. -/
def plugins_to_check (common : List String) (found : List String) : List String :=
  common.filter (fun s => !found.contains s)

/-- One iteration of the candidate-stage collection loop (lines 247-251):
append an installed result and add its reported slug to the discovered set —
with no membership re-check before appending. -/
def poolAccum (probe : String → ProbeResult)
    (acc : List ProbeResult × List String) (slug : String) :
    List ProbeResult × List String :=
  let info := probe slug
  if info.is_installed then (acc.1 ++ [info], acc.2 ++ [info.plugin_slug]) else acc

/-- `WordPressScanner.enumerate_plugins` (lines 211-254): HTML-scraping stage,
then the candidate list filtered against the discovered set and probed by the
worker pool; `total_found` is the final plugin-list length. -/
def enumerate_plugins (probe : String → ProbeResult)
    (htmlSlugs : Option (List String)) (common : List String) : EnumResult :=
  let stage1 := htmlStage probe htmlSlugs
  let toCheck := plugins_to_check common stage1.2
  let stage2 := toCheck.foldl (poolAccum probe) stage1
  { plugins := stage2.1,
    total_found := stage2.1.length,
    detection_methods :=
      (match htmlSlugs with
       | some (_ :: _) => ["HTML parsing"]
       | _ => []) ++ ["common plugin checking (concurrent)"] }

/-- The invariant maintained by both collection loops: the plugin list's
slugs are exactly the discovered set, the discovered set has no duplicates,
and every collected result is installed. -/
def EnumInv (acc : List ProbeResult × List String) : Prop :=
  acc.1.map (fun p => p.plugin_slug) = acc.2 ∧ acc.2.Nodup
    ∧ ∀ p ∈ acc.1, p.is_installed = true

/-- A concrete probe environment (two installed slugs) used to instantiate
the enumerator theorem on explicit inputs. -/
def sampleProbe (s : String) : ProbeResult :=
  { plugin_slug := s, is_installed := s == "akismet" || s == "jetpack",
    version := none, detected_by := some "readme.txt", plugin_url := none }

/-!
Helper lemmas.
-/

/-- A component list compares strictly below any proper extension of itself. -/
theorem lvCompare_append_lt (l : List LVTok) (t : LVTok) (ts : List LVTok) :
    lvCompare l (l ++ t :: ts) = .ok .lt := by
  induction l with
  | nil => cases t <;> rfl
  | cons x xs ih =>
      cases x with
      | num a => simp [lvCompare, ih]
      | str s => simp [lvCompare, ih]

/-- Appending `".0"` to any version string appends the component `0`: the dot
closes whatever chunk was open and `0` parses as a fresh numeric component. -/
theorem looseParse_append_dot_zero (v : String) :
    looseParse (v ++ ".0") = looseParse v ++ [LVTok.num 0] := by
  unfold looseParse
  rw [String.data_append]
  have hd : (".0" : String).data = ['.', '0'] := rfl
  rw [hd, List.foldl_append]
  generalize List.foldl lvStep ⟨[], none⟩ v.data = S
  show lvFlush (lvStep (lvStep S '.') '0') = lvFlush S ++ [LVTok.num 0]
  have h1 : lvStep S '.' = ⟨lvFlush S, none⟩ := rfl
  have h2 : lvStep (⟨lvFlush S, none⟩ : LVState) '0'
      = ⟨lvFlush S ++ [], some (.cnum 0)⟩ := rfl
  rw [h1, h2]
  simp [lvFlush, curTok]

/-- `LooseVersion` never equates a nonempty version with its zero-padded
extension: the shorter component list is strictly smaller.  (An empty
version string is never parsed by `distutils` and would raise instead.) -/
theorem versionLess_self_dot_zero (v : String) (hv : v.isEmpty = false) :
    versionLess v (v ++ ".0") = .ok true := by
  have h2 : (v ++ ".0").isEmpty = false := by
    by_contra hc
    rw [Bool.not_eq_false] at hc
    have he : v ++ ".0" = "" := (String.isEmpty_iff _).mp hc
    have hd := congrArg String.data he
    rw [String.data_append] at hd
    simp at hd
  unfold versionLess
  rw [hv, h2]
  simp only [Bool.or_self, Bool.false_eq_true, if_false]
  rw [looseParse_append_dot_zero, lvCompare_append_lt]
  rfl

/-- Tier 2 leaves the instrumentation flag, the source label, the slug and the
supplied version unchanged: it only touches the latest version, the outdated
flag, the vulnerability list and the error field. -/
theorem tier2Apply_keeps (version : Option String) (env2 : Except String Tier2Resp)
    (st : CveReport) :
    (tier2Apply version env2 st).tier2_executed = st.tier2_executed
  ∧ (tier2Apply version env2 st).source = st.source
  ∧ (tier2Apply version env2 st).plugin_slug = st.plugin_slug
  ∧ (tier2Apply version env2 st).version = st.version := by
  unfold tier2Apply
  cases env2 with
  | error msg => exact ⟨rfl, rfl, rfl, rfl⟩
  | ok r =>
      dsimp only
      split
      · split
        · split
          · split <;> exact ⟨rfl, rfl, rfl, rfl⟩
          · exact ⟨rfl, rfl, rfl, rfl⟩
        · exact ⟨rfl, rfl, rfl, rfl⟩
      · exact ⟨rfl, rfl, rfl, rfl⟩

/-- The final relabel changes nothing but the source label. -/
theorem relabel_keeps (token : Option String) (r : CveReport) :
    (relabel token r).is_outdated = r.is_outdated
  ∧ (relabel token r).tier2_executed = r.tier2_executed
  ∧ (relabel token r).error = r.error
  ∧ (relabel token r).vulnerabilities = r.vulnerabilities := by
  unfold relabel
  split <;> exact ⟨rfl, rfl, rfl, rfl⟩

/-- The source after the final relabel, as a conditional on the input. -/
theorem relabel_source (token : Option String) (r : CveReport) :
    (relabel token r).source
      = (if !r.is_outdated && truthy token then "WordPress.org API (Up to date)"
         else r.source) := by
  unfold relabel
  split <;> rename_i h <;> simp [h]

/-- The instrumentation flag records exactly the tier-2 guard. -/
theorem gpc_tier2_executed (plugin_slug : String) (version token : Option String)
    (env1 : Except Unit Tier1Resp) (env2 : Except String Tier2Resp) :
    (get_plugin_cves plugin_slug version token env1 env2).tier2_executed
      = gpcGuard version token env1 := by
  unfold get_plugin_cves
  rw [(relabel_keeps token _).2.1]
  by_cases hg : gpcGuard version token env1 = true
  · rw [if_pos hg, (tier2Apply_keeps version env2 _).1, hg]
  · rw [if_neg hg]
    simp only [Bool.not_eq_true] at hg
    rw [hg]
    rfl

/-- A failed tier 1 always leaves the tier-1 outdated flag set. -/
theorem tier1_failed_outdated (version : Option String)
    (env1 : Except Unit Tier1Resp) (h : tier1Failed env1 = true) :
    (tier1 version env1).2 = true := by
  cases env1 with
  | error e => rfl
  | ok r =>
      simp only [tier1]
      split
      · rename_i hs
        cases hj : r.json with
        | error e => simp [hj]
        | ok lv => simp [tier1Failed, hs, hj] at h
      · rfl

/-- One vulnerability-loop step only ever appends: the accumulator is a
prefix of the result. -/
theorem vulnStep_acc (version : Option String) (acc : List VulnOut) (v : Vuln) :
    vulnStep version acc v = acc ++ vulnStep version [] v := by
  unfold vulnStep
  split
  · simp
  · split
    · split <;> simp
    · simp

/-- The vulnerability loop distributes over the accumulator. -/
theorem foldl_vulnStep_append (version : Option String) (l : List Vuln)
    (acc : List VulnOut) :
    l.foldl (vulnStep version) acc = acc ++ l.foldl (vulnStep version) [] := by
  induction l generalizing acc with
  | nil => simp
  | cons v t ih =>
      rw [List.foldl_cons, List.foldl_cons, ih (vulnStep version acc v),
        ih (vulnStep version [] v), vulnStep_acc version acc v, List.append_assoc]

/-- One HTML-stage step preserves the loop invariant (the stage re-checks
membership before adding). -/
theorem htmlAccum_inv (probe : String → ProbeResult)
    (hp : ∀ s, (probe s).plugin_slug = s)
    (acc : List ProbeResult × List String) (s : String) (h : EnumInv acc) :
    EnumInv (htmlAccum probe acc s) := by
  obtain ⟨hmap, hnd, hinst⟩ := h
  unfold htmlAccum
  split
  · exact ⟨hmap, hnd, hinst⟩
  · rename_i hcont
    dsimp only
    split
    · rename_i hins
      refine ⟨by simp [hmap, hp s], ?_, ?_⟩
      · have hsnot : s ∉ acc.2 := fun hmem => hcont (by simpa using hmem)
        simp [List.nodup_append, hnd, hsnot]
      · intro p hmem
        rcases List.mem_append.mp hmem with h1 | h2
        · exact hinst p h1
        · rw [List.mem_singleton.mp h2]
          exact hins
    · exact ⟨hmap, hnd, hinst⟩

/-- The HTML-stage fold preserves the loop invariant. -/
theorem htmlFold_inv (probe : String → ProbeResult)
    (hp : ∀ s, (probe s).plugin_slug = s) (slugs : List String) :
    ∀ acc, EnumInv acc → EnumInv (slugs.foldl (htmlAccum probe) acc) := by
  induction slugs with
  | nil => exact fun acc h => h
  | cons s t ih =>
      intro acc h
      rw [List.foldl_cons]
      exact ih _ (htmlAccum_inv probe hp acc s h)

/-- The HTML stage establishes the loop invariant. -/
theorem htmlStage_inv (probe : String → ProbeResult)
    (hp : ∀ s, (probe s).plugin_slug = s) (htmlSlugs : Option (List String)) :
    EnumInv (htmlStage probe htmlSlugs) := by
  have h0 : EnumInv (([], []) : List ProbeResult × List String) :=
    ⟨rfl, List.nodup_nil, fun p h => absurd h (List.not_mem_nil p)⟩
  cases htmlSlugs with
  | none => exact h0
  | some slugs => exact htmlFold_inv probe hp slugs ([], []) h0

/-- The candidate-stage fold preserves the loop invariant, provided the
slugs it processes are distinct and none is already discovered (which is what
the pre-scheduling filter guarantees); this carries the pool stage even
though it appends without re-checking membership. -/
theorem poolFold_inv (probe : String → ProbeResult)
    (hp : ∀ s, (probe s).plugin_slug = s) (l : List String) :
    ∀ acc, EnumInv acc → l.Nodup → (∀ s ∈ l, s ∉ acc.2) →
      EnumInv (l.foldl (poolAccum probe) acc) := by
  induction l with
  | nil => exact fun acc h _ _ => h
  | cons s t ih =>
      intro acc h hnd hdis
      obtain ⟨hmap, hnd2, hinst⟩ := h
      have hsacc : s ∉ acc.2 := hdis s (List.mem_cons_self s t)
      have hst : s ∉ t := (List.nodup_cons.mp hnd).1
      rw [List.foldl_cons]
      apply ih
      · unfold poolAccum
        dsimp only
        split
        · rename_i hins
          refine ⟨by simp [hmap], ?_, ?_⟩
          · rw [hp s]
            simp [List.nodup_append, hnd2, hsacc]
          · intro p hmem
            rcases List.mem_append.mp hmem with h1 | h2
            · exact hinst p h1
            · rw [List.mem_singleton.mp h2]
              exact hins
        · exact ⟨hmap, hnd2, hinst⟩
      · exact (List.nodup_cons.mp hnd).2
      · intro u hu
        unfold poolAccum
        dsimp only
        split
        · intro hmem
          rcases List.mem_append.mp hmem with h1 | h2
          · exact hdis u (List.mem_cons_of_mem s hu) h1
          · rw [hp s] at h2
            exact hst ((List.mem_singleton.mp h2) ▸ hu)
        · exact hdis u (List.mem_cons_of_mem s hu)

/-- A pattern is found at the start of any extension of itself. -/
theorem listStartsWith_append (pat rest : List Char) :
    listStartsWith pat (pat ++ rest) = true := by
  induction pat with
  | nil => rfl
  | cons c t ih => simp [listStartsWith, ih]

/-- A pattern occurs in itself followed by anything. -/
theorem listSubOf_append_left (pat post : List Char) :
    listSubOf pat (pat ++ post) = true := by
  cases pat with
  | nil =>
      cases post with
      | nil => rfl
      | cons c t => simp [listSubOf, listStartsWith]
  | cons p ps =>
      show listSubOf (p :: ps) (p :: (ps ++ post)) = true
      simp only [listSubOf]
      rw [← List.cons_append, listStartsWith_append]
      simp

/-- Occurrence survives prepending. -/
theorem listSubOf_append_pre (pat l pre : List Char)
    (h : listSubOf pat l = true) : listSubOf pat (pre ++ l) = true := by
  induction pre with
  | nil => simpa using h
  | cons c t ih =>
      show listSubOf pat (c :: (t ++ l)) = true
      simp only [listSubOf, Bool.or_eq_true]
      exact Or.inr ih

/-- The slug is interpolated verbatim: it occurs as a substring of the
readme probe URL. -/
theorem strContains_readme_url (target_url plugin_slug : String) :
    strContains (readme_url target_url plugin_slug) plugin_slug = true := by
  unfold strContains readme_url plugin_base_url
  simp only [String.data_append, List.append_assoc]
  apply listSubOf_append_pre
  apply listSubOf_append_pre
  exact listSubOf_append_left _ _

/-!
Claim theorems.
-/

/-- C1: in every detector run — any combination of matched signals, including
a root-fetch failure, which sets `error` — the result satisfies
`is_wordpress = (confidence >= 30)`, where the confidence is the sum of the
matched signal weights (+30 paths, +40 generator tag, +30 REST probe) and 0 on
root-fetch failure. -/
theorem C1_detector_threshold (target : String) (inp : DetectInput) :
    (is_wordpress target inp).is_wordpress
        = decide (30 ≤ (is_wordpress target inp).confidence)
  ∧ (is_wordpress target inp).confidence
        = (match inp.root with
           | .error _ => 0
           | .ok r =>
               (if pathSignal r.html then 30 else 0)
                 + (if r.generator.isSome then 40 else 0)
                 + (if restSignal inp.rest then 30 else 0))
  ∧ (is_wordpress target inp).error
        = (match inp.root with | .error e => some e | .ok _ => none) := by
  obtain ⟨root, rest⟩ := inp
  cases root with
  | error e => exact ⟨rfl, rfl, rfl⟩
  | ok r => exact ⟨rfl, rfl, rfl⟩

/-- C2 counterexample: the claim says a version compared against its `".0"`
extension is equal, so installed `"1.9"` with latest `"1.9.0"` would yield
`is_outdated = false`; the resolver (via `LooseVersion` list comparison, where
a strict prefix is smaller) yields `is_outdated = true`. -/
theorem C2_counterexample :
    (get_plugin_cves "plugin" (some "1.9") none
        (.ok ⟨200, .ok (some "1.9.0")⟩) (.error "down")).is_outdated = true := by
  rfl

/-- C2 amended: the comparison is dotted-numeric on components — `"1.9"` is
below `"1.10"`, and the resolver marks that installation outdated — but
shorter component sequences are not zero-padded: for every truthy (nonempty)
version string `v` — the only kind the resolver ever compares, since the
line-112 truthiness guard skips the comparison for a falsy supplied version —
the comparison puts `v` strictly below `v ++ ".0"`, so an installation at
`v` with latest `v ++ ".0"` is marked outdated, not equal. -/
theorem C2_amended (v : String) (hv : truthy (some v) = true) :
    versionLess "1.9" "1.10" = .ok true
  ∧ (get_plugin_cves "plugin" (some "1.9") none
        (.ok ⟨200, .ok (some "1.10")⟩) (.error "down")).is_outdated = true
  ∧ versionLess v (v ++ ".0") = .ok true :=
  ⟨rfl, rfl, versionLess_self_dot_zero v (by simpa [truthy] using hv)⟩

/-- C2 witness: the truthy version `"1.9"` compares strictly below its
zero-padded extension. -/
theorem C2_witness :
    truthy (some "1.9") = true
  ∧ versionLess "1.9" ("1.9" ++ ".0") = .ok true :=
  ⟨rfl, (C2_amended "1.9" rfl).2.2⟩

/-- C3 counterexample: the claim says a failed registry call leaves the
returned report with `is_outdated = true` for every supplied version; but with
a credential configured, tier 2 recomputes the flag against the paid API's
latest version (installed `"2.0"` against latest `"1.0"` is not outdated), so
the returned report carries `is_outdated = false`. -/
theorem C3_counterexample :
    (get_plugin_cves "plugin" (some "2.0") (some "token") (.error ())
        (.ok ⟨200, some "1.0", []⟩)).is_outdated = false := by
  rfl

/-- C3 amended: if the registry call raises or returns non-200 and no truthy
paid-API credential is configured (so tier 2 cannot recompute the flag), the
returned report has `is_outdated = true`, whatever the supplied version. -/
theorem C3_amended (plugin_slug : String) (version token : Option String)
    (env1 : Except Unit Tier1Resp) (env2 : Except String Tier2Resp)
    (h1 : tier1Failed env1 = true) (h2 : truthy token = false) :
    (get_plugin_cves plugin_slug version token env1 env2).is_outdated = true := by
  unfold get_plugin_cves
  rw [(relabel_keeps token _).1]
  have hg : ¬ gpcGuard version token env1 = true := by
    unfold gpcGuard
    rw [h2]
    simp
  rw [if_neg hg]
  exact tier1_failed_outdated version env1 h1

/-- C3 witness: a raised registry call with no credential yields an outdated
report. -/
theorem C3_witness :
    tier1Failed (.error ()) = true ∧ truthy none = false
  ∧ (get_plugin_cves "plugin" (some "2.0") none (.error ())
        (.ok ⟨200, some "9.9", []⟩)).is_outdated = true :=
  ⟨rfl, rfl,
   C3_amended "plugin" (some "2.0") none (.error ()) (.ok ⟨200, some "9.9", []⟩)
     rfl rfl⟩

/-- C4: tier 2 executes exactly when a truthy credential is configured and
tier 1 marked the plugin outdated, or the installed version is known (truthy)
while no registry latest version was resolved; and with no truthy credential
the report's vulnerability list is empty. -/
theorem C4_tier2_gating (plugin_slug : String) (version token : Option String)
    (env1 : Except Unit Tier1Resp) (env2 : Except String Tier2Resp) :
    (get_plugin_cves plugin_slug version token env1 env2).tier2_executed
      = specTier2Runs (truthy token) (tier1 version env1).2 (truthy version)
          (truthy (tier1 version env1).1)
  ∧ (truthy token = false →
      (get_plugin_cves plugin_slug version token env1 env2).vulnerabilities = []) := by
  constructor
  · rw [gpc_tier2_executed]
    unfold gpcGuard specTier2Runs
    generalize (tier1 version env1).2 = o
    generalize truthy (tier1 version env1).1 = l
    generalize truthy version = vv
    generalize truthy token = t
    cases o <;> cases l <;> cases vv <;> cases t <;> rfl
  · intro ht
    unfold get_plugin_cves
    rw [(relabel_keeps token _).2.2.2]
    have hg : ¬ gpcGuard version token env1 = true := by
      unfold gpcGuard
      rw [ht]
      simp
    rw [if_neg hg]
    rfl

/-- C4 witness: the end-to-end scenario — no credential, registry latest
`"5.5.0"` for installed `"5.4.2"` — leaves tier 2 unexecuted and the
vulnerability list empty. -/
theorem C4_witness :
    (get_plugin_cves "plugin" (some "5.4.2") none
        (.ok ⟨200, .ok (some "5.5.0")⟩) (.error "down")).tier2_executed
      = specTier2Runs (truthy none)
          (tier1 (some "5.4.2") (.ok ⟨200, .ok (some "5.5.0")⟩)).2
          (truthy (some "5.4.2"))
          (truthy (tier1 (some "5.4.2") (.ok ⟨200, .ok (some "5.5.0")⟩)).1)
  ∧ (get_plugin_cves "plugin" (some "5.4.2") none
        (.ok ⟨200, .ok (some "5.5.0")⟩) (.error "down")).vulnerabilities = [] :=
  ⟨(C4_tier2_gating "plugin" (some "5.4.2") none
      (.ok ⟨200, .ok (some "5.5.0")⟩) (.error "down")).1,
   (C4_tier2_gating "plugin" (some "5.4.2") none
      (.ok ⟨200, .ok (some "5.5.0")⟩) (.error "down")).2 rfl⟩

/-- C5 counterexample: the claim says an entry with a fixed-in version but no
known installed version is included unconditionally, and that unfixed entries
carry `fixedInVersion = "not fixed"`.  In the code the no-installed-version
case falls through every branch of the loop and the entry is dropped, and the
literal used is `"Not fixed"`. -/
theorem C5_counterexample :
    (get_plugin_cves "plugin" none (some "token") (.error ())
        (.ok ⟨200, some "9.9", [⟨some "T", some "CVE-2", some "2.0"⟩]⟩)).tier2_executed
      = true
  ∧ (get_plugin_cves "plugin" none (some "token") (.error ())
        (.ok ⟨200, some "9.9", [⟨some "T", some "CVE-2", some "2.0"⟩]⟩)).vulnerabilities
      = []
  ∧ (get_plugin_cves "plugin" (some "1.0") (some "token") (.error ())
        (.ok ⟨200, none, [⟨some "T", some "CVE-2", none⟩]⟩)).vulnerabilities
      = [⟨some "T", some "CVE-2", "Not fixed"⟩] :=
  ⟨rfl, rfl, rfl⟩

/-- C5 amended: in the tier-2 vulnerability loop, an entry with a falsy
fixed-in version is always included as `"Not fixed"`; an entry with a truthy
fixed-in version and a truthy installed version is included exactly when the
installed version compares below the fixed-in version, or the comparison
raises; an entry with a truthy fixed-in version and a falsy installed version
is dropped; and the loop treats entries pointwise. -/
theorem C5_amended (version : Option String) (v : Vuln) :
    (truthy v.fixed_in = false →
       vulnFilter version [v] = [⟨v.title, v.cve, "Not fixed"⟩])
  ∧ (truthy v.fixed_in = true → truthy version = true →
       vulnFilter version [v]
         = (match versionLess (ostr version) (ostr v.fixed_in) with
            | .ok false => []
            | _ => [⟨v.title, v.cve, ostr v.fixed_in⟩]))
  ∧ (truthy v.fixed_in = true → truthy version = false →
       vulnFilter version [v] = [])
  ∧ (∀ rest : List Vuln,
       vulnFilter version (v :: rest)
         = vulnFilter version [v] ++ vulnFilter version rest) := by
  refine ⟨?_, ?_, ?_, ?_⟩
  · intro hf
    show vulnStep version [] v = _
    unfold vulnStep
    rw [hf]
    simp
  · intro hf hv
    show vulnStep version [] v = _
    unfold vulnStep
    rw [hf, hv]
    cases hvl : versionLess (ostr version) (ostr v.fixed_in) with
    | ok b => cases b <;> simp [hvl]
    | error e => simp [hvl]
  · intro hf hv
    show vulnStep version [] v = _
    unfold vulnStep
    rw [hf, hv]
    simp
  · intro rest
    unfold vulnFilter
    rw [List.foldl_cons, foldl_vulnStep_append version rest (vulnStep version [] v)]
    rfl

/-- C5 witness: the specification's own filtering scenarios — fixed-in
`"2.0"` with installed `"1.5"` included, with installed `"2.5"` excluded, no
fixed-in always included — plus the dropped no-installed-version case. -/
theorem C5_witness :
    vulnFilter (some "1.5") [⟨some "a", none, some "2.0"⟩]
      = [⟨some "a", none, "2.0"⟩]
  ∧ vulnFilter (some "2.5") [⟨some "a", none, some "2.0"⟩] = []
  ∧ vulnFilter (some "1.5") [⟨some "b", none, none⟩]
      = [⟨some "b", none, "Not fixed"⟩]
  ∧ vulnFilter none [⟨some "c", none, some "2.0"⟩] = [] := by
  refine ⟨?_, ?_, ?_, ?_⟩
  · exact ((C5_amended (some "1.5") ⟨some "a", none, some "2.0"⟩).2.1 rfl rfl).trans rfl
  · exact ((C5_amended (some "2.5") ⟨some "a", none, some "2.0"⟩).2.1 rfl rfl).trans rfl
  · exact (C5_amended (some "1.5") ⟨some "b", none, none⟩).1 rfl
  · exact (C5_amended none ⟨some "c", none, some "2.0"⟩).2.2.1 rfl rfl

/-- C6 counterexample: the claim says the paid-database label appears exactly
when tier 2 executed; here tier 2 executes (and even contributes a
vulnerability), recomputes the plugin as up to date against the paid API's
latest version, and the final relabel leaves the up-to-date free-registry
label instead. -/
theorem C6_counterexample :
    (get_plugin_cves "plugin" (some "2.0") (some "token")
        (.ok ⟨200, .ok (some "3.0")⟩)
        (.ok ⟨200, some "2.0", [⟨some "V", some "CVE-1", none⟩]⟩)).tier2_executed
      = true
  ∧ (get_plugin_cves "plugin" (some "2.0") (some "token")
        (.ok ⟨200, .ok (some "3.0")⟩)
        (.ok ⟨200, some "2.0", [⟨some "V", some "CVE-1", none⟩]⟩)).source
      = "WordPress.org API (Up to date)"
  ∧ (get_plugin_cves "plugin" (some "2.0") (some "token")
        (.ok ⟨200, .ok (some "3.0")⟩)
        (.ok ⟨200, some "2.0", [⟨some "V", some "CVE-1", none⟩]⟩)).vulnerabilities
      = [⟨some "V", some "CVE-1", "Not fixed"⟩] :=
  ⟨rfl, rfl, rfl⟩

/-- C6 amended: the source is the up-to-date free-registry label exactly when
the final outdated flag is false and the credential truthy (even if tier 2
executed); otherwise the paid-database label exactly when tier 2 executed;
otherwise the plain free-registry label. -/
theorem C6_amended (plugin_slug : String) (version token : Option String)
    (env1 : Except Unit Tier1Resp) (env2 : Except String Tier2Resp) :
    (get_plugin_cves plugin_slug version token env1 env2).source
      = (if !(get_plugin_cves plugin_slug version token env1 env2).is_outdated
            && truthy token
         then "WordPress.org API (Up to date)"
         else if (get_plugin_cves plugin_slug version token env1 env2).tier2_executed
         then "WPScan API (Outdated)"
         else "WordPress.org API") := by
  unfold get_plugin_cves
  rw [relabel_source, (relabel_keeps token _).1, (relabel_keeps token _).2.1]
  by_cases hg : gpcGuard version token env1 = true
  · simp only [if_pos hg]
    rw [(tier2Apply_keeps version env2 _).1, (tier2Apply_keeps version env2 _).2.1]
    by_cases hc : (!(tier2Apply version env2
        { gpcBase plugin_slug version env1 with
            source := "WPScan API (Outdated)", tier2_executed := true }).is_outdated
        && truthy token) = true
    · simp only [if_pos hc]
    · simp only [if_neg hc]
      rfl
  · simp only [if_neg hg]
    by_cases hc : (!(gpcBase plugin_slug version env1).is_outdated
        && truthy token) = true
    · simp only [if_pos hc]
    · simp only [if_neg hc]
      rfl

/-- C9 counterexample: the claim says an exception during tier 1 is captured
into the report's `error` field; the code swallows it (bare `except` with
`pass` after setting the conservative flag), so the report's `error` is
`none` even though the registry call raised. -/
theorem C9_counterexample :
    (get_plugin_cves "plugin" (some "1.0") none (.error ())
        (.ok ⟨200, none, []⟩)).error = none
  ∧ (get_plugin_cves "plugin" (some "1.0") none (.error ())
        (.ok ⟨200, none, []⟩)).is_outdated = true :=
  ⟨rfl, rfl⟩

/-- C9 amended: a tier-2 exception is captured into the report's `error`
field (the resolver still returns a report), while a tier-1 exception is
swallowed: it only sets the conservative outdated flag and — when tier 2 does
not run — leaves `error` unset. -/
theorem C9_amended (plugin_slug : String) (version token : Option String)
    (env1 : Except Unit Tier1Resp) (env2 : Except String Tier2Resp) (msg : String) :
    (gpcGuard version token env1 = true →
      (get_plugin_cves plugin_slug version token env1 (.error msg)).error
        = some ("WPScan API error: " ++ msg))
  ∧ (env1 = .error () → truthy token = false →
      (get_plugin_cves plugin_slug version token env1 env2).error = none
    ∧ (get_plugin_cves plugin_slug version token env1 env2).is_outdated = true) := by
  constructor
  · intro hg
    unfold get_plugin_cves
    rw [(relabel_keeps token _).2.2.1, if_pos hg]
    rfl
  · intro he ht
    subst he
    have hg : ¬ gpcGuard version token (.error ()) = true := by
      unfold gpcGuard
      rw [ht]
      simp
    refine ⟨?_, ?_⟩
    · unfold get_plugin_cves
      rw [(relabel_keeps token _).2.2.1, if_neg hg]
      rfl
    · unfold get_plugin_cves
      rw [(relabel_keeps token _).1, if_neg hg]
      rfl

/-- C9 witness: a raised WPScan call is captured into `error`; a raised
registry call with no credential leaves `error` unset and the flag set. -/
theorem C9_witness :
    (get_plugin_cves "plugin" (some "1.0") (some "token")
        (.ok ⟨200, .ok (some "2.0")⟩) (.error "boom")).error
      = some ("WPScan API error: " ++ "boom")
  ∧ (get_plugin_cves "plugin" (some "9.9") none (.error ())
        (.ok ⟨500, none, []⟩)).error = none
  ∧ (get_plugin_cves "plugin" (some "9.9") none (.error ())
        (.ok ⟨500, none, []⟩)).is_outdated = true :=
  ⟨(C9_amended "plugin" (some "1.0") (some "token") (.ok ⟨200, .ok (some "2.0")⟩)
      (.error "boom") "boom").1 rfl,
   ((C9_amended "plugin" (some "9.9") none (.error ())
      (.ok ⟨500, none, []⟩) "x").2 rfl rfl).1,
   ((C9_amended "plugin" (some "9.9") none (.error ())
      (.ok ⟨500, none, []⟩) "x").2 rfl rfl).2⟩

/-- C7: in every enumerator run — over any probe environment that reports
results under the probed slug, and any deduplicated candidate list — a slug
discovered by the HTML stage is excluded from the candidate probing list;
every returned entry is installed; the returned slugs are pairwise distinct;
and `total_found` is the length of the returned list. -/
theorem C7_enumerator (probe : String → ProbeResult)
    (htmlSlugs : Option (List String)) (common : List String)
    (hp : ∀ s, (probe s).plugin_slug = s) (hc : common.Nodup) :
    (∀ s ∈ (htmlStage probe htmlSlugs).2,
        s ∉ plugins_to_check common (htmlStage probe htmlSlugs).2)
  ∧ (∀ p ∈ (enumerate_plugins probe htmlSlugs common).plugins,
        p.is_installed = true)
  ∧ ((enumerate_plugins probe htmlSlugs common).plugins.map
        (fun p => p.plugin_slug)).Nodup
  ∧ (enumerate_plugins probe htmlSlugs common).total_found
      = (enumerate_plugins probe htmlSlugs common).plugins.length := by
  have h1 : EnumInv (htmlStage probe htmlSlugs) := htmlStage_inv probe hp htmlSlugs
  have htc : ∀ s ∈ plugins_to_check common (htmlStage probe htmlSlugs).2,
      s ∉ (htmlStage probe htmlSlugs).2 := by
    intro s hs
    have hpred := (List.mem_filter.mp hs).2
    simpa using hpred
  have hnd : (plugins_to_check common (htmlStage probe htmlSlugs).2).Nodup :=
    hc.filter _
  have h2 : EnumInv ((plugins_to_check common (htmlStage probe htmlSlugs).2).foldl
      (poolAccum probe) (htmlStage probe htmlSlugs)) :=
    poolFold_inv probe hp _ _ h1 hnd htc
  refine ⟨?_, ?_, ?_, rfl⟩
  · intro s hs hmem
    exact htc s hmem hs
  · intro p hmem
    exact h2.2.2 p hmem
  · show (((plugins_to_check common (htmlStage probe htmlSlugs).2).foldl
        (poolAccum probe) (htmlStage probe htmlSlugs)).1.map
          (fun p => p.plugin_slug)).Nodup
    rw [h2.1]
    exact h2.2.1

/-- C7 witness: an explicit run — HTML slugs `akismet` (installed) and
`ghost` (not), candidate list `akismet, jetpack` — has pairwise-distinct
returned slugs and a consistent `total_found`. -/
theorem C7_witness :
    ((enumerate_plugins sampleProbe (some ["akismet", "ghost"])
        ["akismet", "jetpack"]).plugins.map (fun p => p.plugin_slug)).Nodup
  ∧ (enumerate_plugins sampleProbe (some ["akismet", "ghost"])
        ["akismet", "jetpack"]).total_found
      = (enumerate_plugins sampleProbe (some ["akismet", "ghost"])
            ["akismet", "jetpack"]).plugins.length :=
  ⟨(C7_enumerator sampleProbe (some ["akismet", "ghost"]) ["akismet", "jetpack"]
      (fun s => rfl) (by decide)).2.2.1,
   (C7_enumerator sampleProbe (some ["akismet", "ghost"]) ["akismet", "jetpack"]
      (fun s => rfl) (by decide)).2.2.2⟩

/-- C8: the prober short-circuits — a readme 200 reports `readme.txt` with
the oracle `Stable tag` capture as the version (unset capture leaves the
version unset with installed still true) and never consults the asset probe;
otherwise an asset 200 reports `asset file` with no version; otherwise the
not-installed record; raised calls fall through rather than propagate. -/
theorem C8_prober (target_url plugin_slug : String)
    (readme : Except Unit ReadmeResp) (asset : Except Unit Nat) :
    (∀ r : ReadmeResp, readme = .ok r → r.status = 200 →
        check_plugin target_url plugin_slug readme asset
          = { plugin_slug := plugin_slug, is_installed := true,
              version := r.stable_tag, detected_by := some "readme.txt",
              plugin_url := some (readme_url target_url plugin_slug) }
      ∧ ∀ asset2 : Except Unit Nat,
          check_plugin target_url plugin_slug readme asset2
            = check_plugin target_url plugin_slug readme asset)
  ∧ (readmeMissed readme = true → asset = .ok 200 →
        check_plugin target_url plugin_slug readme asset
          = { plugin_slug := plugin_slug, is_installed := true, version := none,
              detected_by := some "asset file",
              plugin_url := some (css_url target_url plugin_slug) })
  ∧ (readmeMissed readme = true → assetMissed asset = true →
        check_plugin target_url plugin_slug readme asset
          = { plugin_slug := plugin_slug, is_installed := false, version := none,
              detected_by := none, plugin_url := none }) := by
  refine ⟨?_, ?_, ?_⟩
  · intro r hr hs
    subst hr
    constructor
    · simp [check_plugin, hs]
    · intro asset2
      simp [check_plugin, hs]
  · intro hrm ha
    subst ha
    cases readme with
    | error e => simp [check_plugin]
    | ok r =>
        have hf : (r.status == 200) = false := by
          simpa [readmeMissed] using hrm
        simp [check_plugin, hf]
  · intro hrm ham
    cases readme with
    | error e =>
        cases asset with
        | error u => simp [check_plugin]
        | ok st =>
            have hf : (st == 200) = false := by simpa [assetMissed] using ham
            simp [check_plugin, hf]
    | ok r =>
        have hf : (r.status == 200) = false := by
          simpa [readmeMissed] using hrm
        cases asset with
        | error u => simp [check_plugin, hf]
        | ok st =>
            have hf2 : (st == 200) = false := by simpa [assetMissed] using ham
            simp [check_plugin, hf, hf2]

/-- C8 witness: the specification's scenario — readme 200 with
`Stable tag: 5.4.2` — plus the asset fallback and the double-failure case. -/
theorem C8_witness :
    check_plugin "http://t" "contact-form-7" (.ok ⟨200, some "5.4.2"⟩) (.error ())
      = { plugin_slug := "contact-form-7", is_installed := true,
          version := some "5.4.2", detected_by := some "readme.txt",
          plugin_url := some (readme_url "http://t" "contact-form-7") }
  ∧ check_plugin "http://t" "akismet" (.ok ⟨404, none⟩) (.ok 200)
      = { plugin_slug := "akismet", is_installed := true, version := none,
          detected_by := some "asset file",
          plugin_url := some (css_url "http://t" "akismet") }
  ∧ check_plugin "http://t" "ghost" (.error ()) (.error ())
      = { plugin_slug := "ghost", is_installed := false, version := none,
          detected_by := none, plugin_url := none } :=
  ⟨((C8_prober "http://t" "contact-form-7" (.ok ⟨200, some "5.4.2"⟩)
      (.error ())).1 ⟨200, some "5.4.2"⟩ rfl rfl).1,
   (C8_prober "http://t" "akismet" (.ok ⟨404, none⟩) (.ok 200)).2.1 rfl rfl,
   (C8_prober "http://t" "ghost" (.error ()) (.error ())).2.2 rfl rfl⟩

/-- C10 counterexample: the claim says a slug containing `/` is rejected
(nothing probed) or percent-encoded; the prober does neither — the slug
`a/b` is interpolated verbatim into the probe URL and the probe proceeds. -/
theorem C10_counterexample :
    strContains (readme_url "http://target" "a/b") "a/b" = true
  ∧ (check_plugin "http://target" "a/b" (.ok ⟨200, some "1.0"⟩)
        (.error ())).is_installed = true
  ∧ (check_plugin "http://target" "a/b" (.ok ⟨200, some "1.0"⟩)
        (.error ())).plugin_url
      = some "http://target/wp-content/plugins/a/b/readme.txt" := by
  refine ⟨by decide, rfl, by decide⟩

/-- C10 amended: the prober neither rejects nor encodes: for every slug (with
no `.`/`..` path segment, where the concatenation model of `urljoin` is
exact), the slug appears verbatim inside the constructed readme URL, and the
probe still proceeds (a readme 200 reports the slug installed). -/
theorem C10_amended (target_url plugin_slug : String)
    (readme : Except Unit ReadmeResp) (asset : Except Unit Nat)
    (_hseg : noDotSegments plugin_slug = true) :
    strContains (readme_url target_url plugin_slug) plugin_slug = true
  ∧ (∀ r : ReadmeResp, readme = .ok r → r.status = 200 →
       (check_plugin target_url plugin_slug readme asset).is_installed = true) := by
  refine ⟨strContains_readme_url target_url plugin_slug, ?_⟩
  intro r hr hs
  subst hr
  simp [check_plugin, hs]

/-- C10 witness: the separator-bearing slug `a/b` reaches the URL raw and is
probed. -/
theorem C10_witness :
    noDotSegments "a/b" = true
  ∧ strContains (readme_url "http://t" "a/b") "a/b" = true
  ∧ (check_plugin "http://t" "a/b" (.ok ⟨200, none⟩) (.ok 404)).is_installed
      = true :=
  ⟨by decide,
   (C10_amended "http://t" "a/b" (.ok ⟨200, none⟩) (.ok 404) (by decide)).1,
   (C10_amended "http://t" "a/b" (.ok ⟨200, none⟩) (.ok 404) (by decide)).2
     ⟨200, none⟩ rfl rfl⟩

end WPScan
